import Mathlib

/-!
Verification of the two dialog-generation translation units of helgoboss/helgobox:
`main/src/infrastructure/ui/dialogs.cpp` and `src/infrastructure/common/dialogs.cpp`.
Both files consist solely of comments, blank lines and preprocessor directives.
We embed each file as a list of lines and give a small evaluator for the
object-like `#define` environment, including the `#ifdef __APPLE__` conditional.
-/

/-- One physical line of a translation unit, as seen by the C preprocessor.
`stmt` stands for any non-preprocessor, non-comment C++ code line; it is part of
the model so that the absence of runtime code in these files is a provable fact
rather than a consequence of the encoding. -/
inductive Line where
  | comment (text : String)
  | blank
  | defineObj (name : String) (body : String)
  | includeQ (path : String)
  | ifdef (name : String)
  | elseDir
  | endifDir
  | stmt (text : String)
deriving DecidableEq

/-- Transcription of `main/src/infrastructure/ui/dialogs.cpp` (the ui translation
unit), line by line. -/
def uiLines : List Line := [
  Line.comment "This file handles dialog generation. This is necessary on Linux and Mac OS X to make Swell::CreateDialogParam() work",
  Line.comment "with our UI created in ResEdit. This is still done using C++ because that mechanism is weird. There's no point",
  Line.comment "in investing much effort into porting this to Rust. It will not offer any big benefit.",
  Line.blank,
  Line.comment "We want to use the SWELL functions offered by REAPER instead of compiling SWELL into our plug-in.",
  Line.defineObj "SWELL_PROVIDED_BY_APP" "",
  Line.blank,
  Line.comment "Some preparation for dialog generation.",
  Line.includeQ "../../../../target/generated/resource.h",
  Line.includeQ "../../../lib/WDL/WDL/swell/swell.h",
  Line.comment "Make sure the following factors correspond to the ones in `units.rs` (function `effective_scale_factors`).",
  Line.comment "Leave them at 1.0 if possible (we can do OS-specific scaling now right when generating the RC).",
  Line.ifdef "__APPLE__",
  Line.defineObj "SWELL_DLG_SCALE_AUTOGEN" "1.6",
  Line.defineObj "SWELL_DLG_SCALE_AUTOGEN_YADJ" "0.95",
  Line.elseDir,
  Line.defineObj "SWELL_DLG_SCALE_AUTOGEN" "1.9",
  Line.defineObj "SWELL_DLG_SCALE_AUTOGEN_YADJ" "0.92",
  Line.endifDir,
  Line.includeQ "../../../lib/WDL/WDL/swell/swell-dlggen.h",
  Line.defineObj "CBS_HASSTRINGS" "0",
  Line.defineObj "WS_EX_LEFT" "",
  Line.defineObj "WC_COMBOBOX" "\"ComboBox\"",
  Line.defineObj "SS_WORDELLIPSIS" "0",
  Line.blank,
  Line.comment "This is the result of the dialog RC file conversion (via PHP script).",
  Line.includeQ "../../../../target/generated/msvc.rc_mac_dlg"]

/-- Transcription of `src/infrastructure/common/dialogs.cpp` (the common
translation unit), line by line. -/
def commonLines : List Line := [
  Line.comment "This file handles dialog generation. This is necessary on Linux and Mac OS X to make Swell::CreateDialogParam() work",
  Line.comment "with our UI created in ResEdit. This is still done using C++ because that mechanism is weird. There's no point",
  Line.comment "in investing much effort into porting this to Rust. It will not offer any big benefit.",
  Line.blank,
  Line.comment "We want to use the SWELL functions offered by REAPER instead of compiling SWELL into our plug-in.",
  Line.defineObj "SWELL_PROVIDED_BY_APP" "",
  Line.blank,
  Line.comment "Some preparation for dialog generation.",
  Line.includeQ "resource.h",
  Line.includeQ "../../../lib/WDL/WDL/swell/swell.h",
  Line.includeQ "../../../lib/WDL/WDL/swell/swell-dlggen.h",
  Line.defineObj "AUTOCHECKBOX" "CHECKBOX",
  Line.defineObj "TRACKBAR_CLASS" "\"msctls_trackbar32\"",
  Line.defineObj "CBS_HASSTRINGS" "0",
  Line.defineObj "WS_EX_LEFT" "0",
  Line.defineObj "SS_WORDELLIPSIS" "0",
  Line.defineObj "SWELL_DLG_SCALE_AUTOGEN" "1.7",
  Line.blank,
  Line.comment "This is the result of the RC file conversion (via PHP script).",
  Line.includeQ "realearn.rc_mac_dlg"]

/-- Does the character list `t` start with the pattern `pat`? -/
def startsWithChars : List Char → List Char → Bool
  | _, [] => true
  | [], _ :: _ => false
  | a :: as, b :: bs => a == b && startsWithChars as bs

/-- Does the character list `t` contain `pat` as a contiguous sublist? -/
def containsChars : List Char → List Char → Bool
  | [], pat => startsWithChars [] pat
  | c :: rest, pat => startsWithChars (c :: rest) pat || containsChars rest pat

/-- Does the string `t` end with the string `pat`? -/
def strEndsWith (t pat : String) : Bool :=
  startsWithChars t.data.reverse pat.data.reverse

/-- Does the string `t` contain the string `pat` as a substring? -/
def strContains (t pat : String) : Bool :=
  containsChars t.data pat.data

/-- Is the line an object-like `#define`? -/
def Line.isDefine : Line → Bool
  | .defineObj _ _ => true
  | _ => false

/-- Is the line the `#include` of a generated `.rc_mac_dlg` dialog resource? -/
def Line.isGeneratedDlgInclude : Line → Bool
  | .includeQ p => strEndsWith p ".rc_mac_dlg"
  | _ => false

/-- Is the line the `#include` of a generated `.rc_mac_menu` menu resource? -/
def Line.isGeneratedMenuInclude : Line → Bool
  | .includeQ p => strEndsWith p ".rc_mac_menu"
  | _ => false

/-- Is the line a non-preprocessor, non-comment C++ code line? -/
def Line.isRuntimeStmt : Line → Bool
  | .stmt _ => true
  | _ => false

/-- Is the line a comment or a blank line (text with no effect on compilation)? -/
def Line.isTrivia : Line → Bool
  | .comment _ => true
  | .blank => true
  | _ => false

/-- State of the preprocessor while scanning a translation unit: the list of
object-like definitions made so far (most recent first) and the stack of
booleans for the enclosing `#ifdef` blocks (true = branch taken). -/
structure PPState where
  env : List (String × String)
  condStack : List Bool
deriving DecidableEq

/-- Is the name defined in the given environment? -/
def isDefinedIn (env : List (String × String)) (n : String) : Bool :=
  env.any (fun p => p.1 == n)

/-- Replacement text of an object-like definition, if the name is defined
(most recent definition wins, as with C macro redefinition). -/
def lookupDef (env : List (String × String)) (n : String) : Option String :=
  (env.find? (fun p => p.1 == n)).map (fun p => p.2)

/-- One step of the preprocessor scan: comments, blanks and `#include` lines do
not change the definition environment; a `#define` extends it when every
enclosing conditional branch is active; `#ifdef`, `#else` and `#endif`
manipulate the conditional stack. -/
def stepLine (s : PPState) (l : Line) : PPState :=
  match l with
  | .comment _ => s
  | .blank => s
  | .includeQ _ => s
  | .stmt _ => s
  | .defineObj n b =>
      if s.condStack.all (fun c => c) then { s with env := (n, b) :: s.env } else s
  | .ifdef n => { s with condStack := isDefinedIn s.env n :: s.condStack }
  | .elseDir =>
      match s.condStack with
      | [] => s
      | b :: rest => { s with condStack := (!b) :: rest }
  | .endifDir =>
      match s.condStack with
      | [] => s
      | _ :: rest => { s with condStack := rest }

/-- Initial definition environment of a translation unit: on Apple platforms the
compiler predefines `__APPLE__`; the headers included from outside this
repository fragment are not modelled. -/
def initialEnv (apple : Bool) : List (String × String) :=
  if apple then [("__APPLE__", "1")] else []

/-- Definition environment in force at the point of the generated `.rc_mac_dlg`
inclusion: the result of scanning every line that precedes that inclusion. -/
def envAtDlgInclude (apple : Bool) (lines : List Line) : List (String × String) :=
  ((lines.takeWhile (fun l => ! l.isGeneratedDlgInclude)).foldl stepLine
    (PPState.mk (initialEnv apple) [])).env

/-- Environment of the ui translation unit at its generated-resource inclusion. -/
def uiEnv (apple : Bool) : List (String × String) :=
  envAtDlgInclude apple uiLines

/-- Environment of the common translation unit at its generated-resource
inclusion. -/
def commonEnv (apple : Bool) : List (String × String) :=
  envAtDlgInclude apple commonLines

/-- Expansion of a single token under an environment: the replacement text when
the token is a defined name, the token itself otherwise. -/
def expandToken (env : List (String × String)) (t : String) : String :=
  match lookupDef env t with
  | some b => b
  | none => t

/-- Expansion of a token stream under an environment; a token whose replacement
text is empty disappears from the stream. -/
def expandTokens (env : List (String × String)) (ts : List String) : List String :=
  ts.foldr
    (fun t acc =>
      match lookupDef env t with
      | some b => if b == "" then acc else b :: acc
      | none => t :: acc)
    []

/-- Dialog control class names remapped by the compatibility blocks, per the
external-interface contract. -/
def controlClassNames : List String := ["WC_COMBOBOX", "TRACKBAR_CLASS"]

/-- Style-bit macros remapped by the compatibility blocks, per the
external-interface contract. -/
def styleRemapNames : List String := ["CBS_HASSTRINGS", "SS_WORDELLIPSIS", "WS_EX_LEFT"]

/-- Every `#define` of the unit textually precedes every generated `.rc_mac_dlg`
inclusion. -/
def definesPrecedeDlgInclude (lines : List Line) : Prop :=
  ∀ i j : Fin lines.length,
    (lines.get i).isDefine → (lines.get j).isGeneratedDlgInclude → (i : ℕ) < (j : ℕ)

/-- After a generated `.rc_mac_dlg` inclusion, every later line is a comment or
a blank (in fact nothing follows at all). -/
def noCodeAfterDlgInclude (lines : List Line) : Prop :=
  ∀ i j : Fin lines.length,
    (lines.get i).isGeneratedDlgInclude → (i : ℕ) < (j : ℕ) → (lines.get j).isTrivia

/-- Is the line the `#include` of the SWELL main header `swell.h`? -/
def Line.isSwellHInclude : Line → Bool
  | .includeQ p => strEndsWith p "swell/swell.h"
  | _ => false

/-- Is the line the `#include` of the SWELL dialog-generation header
`swell-dlggen.h`? -/
def Line.isDlgGenInclude : Line → Bool
  | .includeQ p => strEndsWith p "swell-dlggen.h"
  | _ => false

/-- Is the line the `#include` of the SWELL menu-generation header
`swell-menugen.h`? -/
def Line.isMenuGenInclude : Line → Bool
  | .includeQ p => strContains p "swell-menugen"
  | _ => false

/-- Does the line carry a comment containing the given text? -/
def Line.commentContains (l : Line) (s : String) : Bool :=
  match l with
  | .comment t => strContains t s
  | _ => false

/-- Claim C1: in each of the two translation units, every macro definition
textually precedes every inclusion of a generated `.rc_mac_dlg` file, such an
inclusion exists, and no code follows it (every later line, if any, is
trivia). -/
theorem C1_defines_precede_dlg_include_and_nothing_follows :
    (definesPrecedeDlgInclude uiLines ∧ noCodeAfterDlgInclude uiLines ∧
      (uiLines.any Line.isGeneratedDlgInclude) = true) ∧
    (definesPrecedeDlgInclude commonLines ∧ noCodeAfterDlgInclude commonLines ∧
      (commonLines.any Line.isGeneratedDlgInclude) = true) := by
  unfold definesPrecedeDlgInclude noCodeAfterDlgInclude
  decide

/-- Claim C2, counterexample: neither translation unit contains any inclusion of
a generated `.rc_mac_menu` file nor of the SWELL menu-generation header, so the
claim that each unit also registers menu templates is false. -/
theorem C2_counterexample_no_menu_registration :
    (uiLines.any Line.isGeneratedMenuInclude) = false ∧
    (commonLines.any Line.isGeneratedMenuInclude) = false ∧
    (uiLines.any Line.isMenuGenInclude) = false ∧
    (commonLines.any Line.isMenuGenInclude) = false := by
  decide

/-- Claim C2, amended: each translation unit defines macros, includes the SWELL
dialog-generation header before its generated `.rc_mac_dlg` include, and thereby
registers dialog templates only; neither unit contains a menu-generation
include. -/
theorem C2_amended_dialog_registration_only :
    ((uiLines.any Line.isDefine) = true ∧
      (∃ i j : Fin uiLines.length, (i : ℕ) < (j : ℕ) ∧
        (uiLines.get i).isDlgGenInclude = true ∧
        (uiLines.get j).isGeneratedDlgInclude = true) ∧
      (uiLines.any Line.isGeneratedMenuInclude) = false) ∧
    ((commonLines.any Line.isDefine) = true ∧
      (∃ i j : Fin commonLines.length, (i : ℕ) < (j : ℕ) ∧
        (commonLines.get i).isDlgGenInclude = true ∧
        (commonLines.get j).isGeneratedDlgInclude = true) ∧
      (commonLines.any Line.isGeneratedMenuInclude) = false) := by
  decide

/-- Claim C3: on either platform, the definition environment in force at each
unit's generated-resource inclusion contains a dialog control class name
(WC_COMBOBOX in the ui unit, TRACKBAR_CLASS in the common unit), all three
style-bit remaps (CBS_HASSTRINGS, SS_WORDELLIPSIS, WS_EX_LEFT), and the
platform scale factor SWELL_DLG_SCALE_AUTOGEN. -/
theorem C3_all_three_macro_kinds_defined : ∀ a : Bool,
    ((controlClassNames.any (isDefinedIn (uiEnv a))) = true ∧
      isDefinedIn (uiEnv a) "WC_COMBOBOX" = true ∧
      (styleRemapNames.all (isDefinedIn (uiEnv a))) = true ∧
      isDefinedIn (uiEnv a) "SWELL_DLG_SCALE_AUTOGEN" = true) ∧
    ((controlClassNames.any (isDefinedIn (commonEnv a))) = true ∧
      isDefinedIn (commonEnv a) "TRACKBAR_CLASS" = true ∧
      (styleRemapNames.all (isDefinedIn (commonEnv a))) = true ∧
      isDefinedIn (commonEnv a) "SWELL_DLG_SCALE_AUTOGEN" = true) := by
  decide

/-- Claim C4, counterexample: the ui translation unit includes a generated
dialog resource, yet on both platforms its environment at that inclusion leaves
AUTOCHECKBOX undefined, so the renaming is not in effect in every such unit. -/
theorem C4_counterexample_ui_lacks_autocheckbox :
    (uiLines.any Line.isGeneratedDlgInclude) = true ∧
    lookupDef (uiEnv true) "AUTOCHECKBOX" = none ∧
    lookupDef (uiEnv false) "AUTOCHECKBOX" = none := by
  decide

/-- Claim C4, amended: the AUTOCHECKBOX → CHECKBOX renaming is in effect only in
the common translation unit, where AUTOCHECKBOX is redefined to CHECKBOX before
the generated include; the ui unit defines no AUTOCHECKBOX remap. -/
theorem C4_amended_autocheckbox_only_in_common : ∀ a : Bool,
    lookupDef (commonEnv a) "AUTOCHECKBOX" = some "CHECKBOX" ∧
    lookupDef (uiEnv a) "AUTOCHECKBOX" = none := by
  decide

/-- Claim C5: in both translation units, the definition of SWELL_PROVIDED_BY_APP
textually precedes the inclusion of `swell.h`, and each unit's own comment
states that the SWELL functions are supplied by REAPER instead of being
compiled into the plug-in. -/
theorem C5_swell_provided_by_app_before_swell_h :
    (∃ i j : Fin uiLines.length, (i : ℕ) < (j : ℕ) ∧
      uiLines.get i = Line.defineObj "SWELL_PROVIDED_BY_APP" "" ∧
      (uiLines.get j).isSwellHInclude = true) ∧
    (∃ i j : Fin commonLines.length, (i : ℕ) < (j : ℕ) ∧
      commonLines.get i = Line.defineObj "SWELL_PROVIDED_BY_APP" "" ∧
      (commonLines.get j).isSwellHInclude = true) ∧
    (uiLines.any (fun l => l.commentContains
      "We want to use the SWELL functions offered by REAPER instead of compiling SWELL into our plug-in.")) = true ∧
    (commonLines.any (fun l => l.commentContains
      "We want to use the SWELL functions offered by REAPER instead of compiling SWELL into our plug-in.")) = true := by
  decide

/-- Claim C6: the ui unit sets SWELL_DLG_SCALE_AUTOGEN to 1.6 and the YADJ
factor to 0.95 when __APPLE__ is defined, and to 1.9 and 0.92 otherwise; the
common unit sets SWELL_DLG_SCALE_AUTOGEN to 1.7 on both platforms with no YADJ;
hence on every platform the two units apply different scale factors. -/
theorem C6_scale_factors :
    lookupDef (uiEnv true) "SWELL_DLG_SCALE_AUTOGEN" = some "1.6" ∧
    lookupDef (uiEnv true) "SWELL_DLG_SCALE_AUTOGEN_YADJ" = some "0.95" ∧
    lookupDef (uiEnv false) "SWELL_DLG_SCALE_AUTOGEN" = some "1.9" ∧
    lookupDef (uiEnv false) "SWELL_DLG_SCALE_AUTOGEN_YADJ" = some "0.92" ∧
    (∀ a : Bool,
      lookupDef (commonEnv a) "SWELL_DLG_SCALE_AUTOGEN" = some "1.7" ∧
      lookupDef (commonEnv a) "SWELL_DLG_SCALE_AUTOGEN_YADJ" = none ∧
      lookupDef (uiEnv a) "SWELL_DLG_SCALE_AUTOGEN" ≠
        lookupDef (commonEnv a) "SWELL_DLG_SCALE_AUTOGEN") := by
  decide

/-- Claim C7: on either platform the environments at the two generated-resource
inclusions differ as stated — WS_EX_LEFT expands to nothing in the ui unit but
to 0 in the common unit, AUTOCHECKBOX and TRACKBAR_CLASS are remapped only in
the common unit, WC_COMBOBOX only in the ui unit — and a token stream drawn from
a generated resource expands differently under the two environments. -/
theorem C7_environments_differ : ∀ a : Bool,
    lookupDef (uiEnv a) "WS_EX_LEFT" = some "" ∧
    lookupDef (commonEnv a) "WS_EX_LEFT" = some "0" ∧
    lookupDef (uiEnv a) "AUTOCHECKBOX" = none ∧
    lookupDef (commonEnv a) "AUTOCHECKBOX" = some "CHECKBOX" ∧
    lookupDef (uiEnv a) "TRACKBAR_CLASS" = none ∧
    lookupDef (commonEnv a) "TRACKBAR_CLASS" = some "\"msctls_trackbar32\"" ∧
    lookupDef (uiEnv a) "WC_COMBOBOX" = some "\"ComboBox\"" ∧
    lookupDef (commonEnv a) "WC_COMBOBOX" = none ∧
    expandTokens (uiEnv a) ["AUTOCHECKBOX", "WS_EX_LEFT"] ≠
      expandTokens (commonEnv a) ["AUTOCHECKBOX", "WS_EX_LEFT"] := by
  decide

/-- Claim C9: neither translation unit contains any non-preprocessor,
non-comment C++ code line — every line is a comment, a blank or a preprocessor
directive — so the units themselves define no runtime error-handling branch. -/
theorem C9_no_runtime_statements :
    (uiLines.all (fun l => ! l.isRuntimeStmt)) = true ∧
    (commonLines.all (fun l => ! l.isRuntimeStmt)) = true := by
  decide

/-- Claim C10: in each translation unit one of the first three lines is a
comment containing the retention rationale "It will not offer any big
benefit." -/
theorem C10_retention_rationale_comment :
    (∃ i : Fin uiLines.length, (i : ℕ) < 3 ∧
      (uiLines.get i).commentContains "It will not offer any big benefit." = true) ∧
    (∃ i : Fin commonLines.length, (i : ℕ) < 3 ∧
      (commonLines.get i).commentContains "It will not offer any big benefit." = true) := by
  decide
